import Mathlib

/-!
Verification of the session lifecycle, pairing-artifact handling, rate limiter
and outbound dispatcher of the WhatsApp/Email notification bridge.

The definitions below are a shallow embedding of the JavaScript source:
- the RateLimiter class (utils/rateLimiter.js),
- the per-session state and the event handlers registered by initializeWhatsApp
  (services/whatsappService.js): the qr / connection open / connection close
  branches of the connection.update handler and the creds.update handler,
- the service functions sendWhatsAppMessage, getQRCode, and the decision
  logic at the top of initializeWhatsApp,
- the HTTP routes GET /qr/:sessionId and POST /send/:sessionId
  (routes/whatsapp.js).

Timestamps are modelled as natural-number milliseconds (Date.now()).  Where the
JavaScript computes a possibly negative difference, the arithmetic is done in
Int so the comparison agrees with the source on every input.
-/

namespace Notif

/-- Session status strings used by the service
(connecting, qr_pending, authenticating, connected, reconnecting,
disconnected, failed). -/
inductive Status where
  | connecting
  | qr_pending
  | authenticating
  | connected
  | reconnecting
  | disconnected
  | failed
  deriving DecidableEq

/-- The per-session record stored in the activeSessions map.  The socket field
records whether the record holds a live connection handle (the stored record
always has one by the time it is inserted; a torn-down record would not).
reconnectTimer holds the delay in ms of the outstanding setTimeout, if any. -/
structure SessionData where
  socket : Bool
  isConnected : Bool
  qrCode : Option String
  qrGeneratedAt : Option Nat
  qrScanned : Bool
  phoneNumber : Option String
  status : Status
  reconnectTimer : Option Nat
  deriving DecidableEq

/-- The session record as initialized by initializeWhatsApp just before the
socket is created and the record is stored in activeSessions. -/
def initialSessionData : SessionData :=
  { socket := true
    isConnected := false
    qrCode := none
    qrGeneratedAt := none
    qrScanned := false
    phoneNumber := none
    status := Status.connecting
    reconnectTimer := none }

namespace DisconnectReason

/-- Status code of DisconnectReason.loggedOut in the external Baileys client. -/
def loggedOut : Nat := 401

/-- Status code of DisconnectReason.restartRequired in the external Baileys
client (the source also matches the literal 515, making the test redundant). -/
def restartRequired : Nat := 515

end DisconnectReason

/-- RateLimiter instance state: configuration plus the requests map from
identifier to the array of recorded timestamps (a missing key reads as []). -/
structure RateLimiter where
  maxRequests : Nat
  timeWindowMs : Nat
  requests : String → List Nat

/-- Math.min over a non-empty array of timestamps (none for the empty array,
where the JavaScript spread would produce Infinity). -/
def listMin : List Nat → Option Nat
  | [] => none
  | x :: xs => some (xs.foldl Nat.min x)

/-- RateLimiter.checkLimit.  Returns (some waitTime, rl) when the limit is hit
(the method throws and the requests map is left untouched), and
(none, updated rl) when the request is allowed (the pruned list with the
current timestamp appended is stored back).  In the degenerate maxRequests = 0
case with no surviving timestamps the JavaScript waitTime is non-finite; that
branch returns the window length and is outside every claim. -/
def checkLimit (rl : RateLimiter) (identifier : String) (now : Nat) :
    Option Int × RateLimiter :=
  let userRequests := rl.requests identifier
  let validRequests := userRequests.filter
    (fun (timestamp : Nat) =>
      decide ((now : Int) - (timestamp : Int) < (rl.timeWindowMs : Int)))
  if rl.maxRequests ≤ validRequests.length then
    match listMin validRequests with
    | some oldestRequest =>
        (some ((rl.timeWindowMs : Int) - ((now : Int) - (oldestRequest : Int))), rl)
    | none => (some (rl.timeWindowMs : Int), rl)
  else
    (none,
      { rl with
        requests := fun k => if k = identifier then validRequests ++ [now]
                             else rl.requests k })

/-- The default WhatsApp limiter: 30 messages per 60 s window. -/
def whatsappLimiter : RateLimiter :=
  { maxRequests := 30, timeWindowMs := 60000, requests := fun _ => [] }

/-- The default email limiter: 50 emails per 3600 s window. -/
def emailLimiter : RateLimiter :=
  { maxRequests := 50, timeWindowMs := 3600000, requests := fun _ => [] }

/-- Side effects of one run of the connection-close branch of the
connection.update handler: whether the record was deleted from activeSessions,
whether the credential directory was removed, whether clearTimeout was invoked
on a live timer, and the delay of a newly issued setTimeout, if any. -/
structure CloseEffects where
  removeFromRegistry : Bool
  deleteCreds : Bool
  cancelTimer : Bool
  schedule : Option Nat
  deriving DecidableEq

/-- The run of the close branch that has no externally visible effect. -/
def noCloseEffects : CloseEffects :=
  { removeFromRegistry := false, deleteCreds := false
    cancelTimer := false, schedule := none }

/-- The connection === close branch of the connection.update handler.
Input: the record, lastDisconnect status code, and Date.now().  Output: the
mutated record plus the side effects performed. -/
def handleConnectionClose (s0 : SessionData) (statusCode : Option Nat) (now : Nat) :
    SessionData × CloseEffects :=
  let s := { s0 with isConnected := false }
  if statusCode = some DisconnectReason.loggedOut then
    ({ s with status := Status.disconnected, reconnectTimer := none },
     { removeFromRegistry := true, deleteCreds := true
       cancelTimer := s.reconnectTimer.isSome, schedule := none })
  else if statusCode = some 515 ∨ statusCode = some 428 ∨
          statusCode = some DisconnectReason.restartRequired then
    if s.qrScanned then
      let s1 := { s with status := Status.reconnecting, qrCode := none, qrScanned := false }
      if s1.reconnectTimer = none then
        ({ s1 with reconnectTimer := some 2000 },
         { noCloseEffects with schedule := some 2000 })
      else (s1, noCloseEffects)
    else if s.qrCode.isSome then
      let s1 := { s with status := Status.qr_pending }
      match s.qrGeneratedAt with
      | some t =>
          if 180000 < now - t then
            let s2 := { s1 with status := Status.reconnecting }
            if s2.reconnectTimer = none then
              ({ s2 with reconnectTimer := some 2000 },
               { noCloseEffects with schedule := some 2000 })
            else (s2, noCloseEffects)
          else (s1, noCloseEffects)
      | none => (s1, noCloseEffects)
    else
      let s1 := { s with status := Status.reconnecting }
      if s1.reconnectTimer = none then
        ({ s1 with reconnectTimer := some 3000 },
         { noCloseEffects with schedule := some 3000 })
      else (s1, noCloseEffects)
  else
    ({ s with status := Status.failed }, noCloseEffects)

/-- The creds.update handler: credentials are persisted (modelled in sysStep),
and if a QR code is on the record it has just been scanned, so qrScanned is set
and the status moves to authenticating.  The QR code itself is not touched. -/
def handleCredsUpdate (s : SessionData) : SessionData :=
  if s.qrCode.isSome then
    { s with qrScanned := true, status := Status.authenticating }
  else s

/-- The qr branch of the connection.update handler: store the fresh token,
stamp it with Date.now(), move to qr_pending. -/
def handleQr (s : SessionData) (qr : String) (now : Nat) : SessionData :=
  { s with qrCode := some qr, qrGeneratedAt := some now, status := Status.qr_pending }

/-- The connection === open branch: clear any reconnect timer, mark connected,
drop the QR code, record the account phone number.  The Bool reports whether
clearTimeout was invoked on a live timer. -/
def handleConnectionOpen (s : SessionData) (phone : Option String) :
    SessionData × Bool :=
  ({ s with reconnectTimer := none, isConnected := true, status := Status.connected
            qrCode := none, phoneNumber := phone },
   s.reconnectTimer.isSome)

/-- The projection of a session record returned by the getQRCode service
function. -/
structure QRCodeData where
  qrCode : Option String
  status : Status
  isConnected : Bool
  phoneNumber : Option String
  qrGeneratedAt : Option Nat
  deriving DecidableEq

/-- getQRCode: none when the session is absent from activeSessions, otherwise
the projected record fields. -/
def getQRCode (reg : Option SessionData) : Option QRCodeData :=
  match reg with
  | none => none
  | some session =>
      some { qrCode := session.qrCode, status := session.status
             isConnected := session.isConnected, phoneNumber := session.phoneNumber
             qrGeneratedAt := session.qrGeneratedAt }

/-- Outcome of GET /qr/:sessionId: 404, the qr_expired overlay response, or the
pass-through of the getQRCode data. -/
inductive QrRouteResult where
  | notFound
  | expired (isConnected : Bool) (qrGeneratedAt : Option Nat)
  | ok (d : QRCodeData)
  deriving DecidableEq

/-- The GET /qr/:sessionId route: fetch the QR data; when both a QR code and a
generation time are present and the code is older than 180000 ms, answer
qrCode null with status qr_expired; otherwise pass the data through. -/
def qrRoute (reg : Option SessionData) (now : Nat) : QrRouteResult :=
  match getQRCode reg with
  | none => QrRouteResult.notFound
  | some qrData =>
      match qrData.qrCode, qrData.qrGeneratedAt with
      | some _, some t =>
          if 180000 < now - t then QrRouteResult.expired qrData.isConnected (some t)
          else QrRouteResult.ok qrData
      | _, _ => QrRouteResult.ok qrData

/-- Errors thrown by sendWhatsAppMessage before the transport is reached. -/
inductive SendError where
  | sessionNotFound
  | notConnected
  deriving DecidableEq

/-- Successful sendWhatsAppMessage result (the transport-assigned message id is
external; the echoed recipient and computed jid are kept). -/
structure SendOk where
  toPhone : String
  jid : String
  deriving DecidableEq

/-- sendWhatsAppMessage: session absent fails with sessionNotFound; a session
with isConnected false fails with notConnected; otherwise the recipient is
normalized to digits and the message is forwarded to the socket. -/
def sendWhatsAppMessage (reg : Option SessionData) (phoneNumber : String)
    (_message : String) : Except SendError SendOk :=
  match reg with
  | none => Except.error SendError.sessionNotFound
  | some session =>
      if session.isConnected then
        let digitsOnly := String.mk (phoneNumber.data.filter Char.isDigit)
        Except.ok { toPhone := phoneNumber, jid := digitsOnly ++ "@s.whatsapp.net" }
      else Except.error SendError.notConnected

/-- Outcome of POST /send/:sessionId: 429 with the limiter wait time, 500 with
the service error, or 200. -/
inductive SendRouteResult where
  | rateLimited (waitTime : Int)
  | sendError (e : SendError)
  | sent (r : SendOk)
  deriving DecidableEq

/-- The POST /send/:sessionId route body (after validation middleware): first
whatsappLimiter.checkLimit(sessionId) — answering 429 on throw — then
sendWhatsAppMessage.  The returned limiter is the limiter state after the
request. -/
def sendRoute (limiter : RateLimiter) (reg : Option SessionData)
    (sessionId phoneNumber message : String) (now : Nat) :
    SendRouteResult × RateLimiter :=
  match checkLimit limiter sessionId now with
  | (some waitTime, rl) => (SendRouteResult.rateLimited waitTime, rl)
  | (none, rl) =>
      match sendWhatsAppMessage reg phoneNumber message with
      | Except.error e => (SendRouteResult.sendError e, rl)
      | Except.ok r => (SendRouteResult.sent r, rl)

/-- Decision taken at the top of initializeWhatsApp for an existing registry
entry: either return the existing record unchanged (no second connection), or
tear down (socket.end when a handle exists, then delete from activeSessions)
and proceed as a fresh attempt. -/
inductive InitDecision where
  | returnExisting (s : SessionData)
  | freshAttempt (tearDown : Bool)
  deriving DecidableEq

/-- The re-entrant part of initializeWhatsApp: a connected record is returned
unchanged; a record with an unscanned QR code younger than 180000 ms is
returned unchanged; any other existing record is torn down and the call
proceeds as a fresh attempt. -/
def initializeWhatsApp (reg : Option SessionData) (now : Nat) : InitDecision :=
  match reg with
  | none => InitDecision.freshAttempt false
  | some existingSession =>
      if existingSession.isConnected then
        InitDecision.returnExisting existingSession
      else
        let keepQr :=
          match existingSession.qrCode, existingSession.qrGeneratedAt with
          | some _, some t =>
              !existingSession.qrScanned && !(decide (180000 < now - t))
          | _, _ => false
        if keepQr then InitDecision.returnExisting existingSession
        else InitDecision.freshAttempt existingSession.socket

/-- One session's slice of the server state: the activeSessions entry, whether
credential material for the session id exists on disk, and the number of
recovery callbacks currently scheduled with setTimeout. -/
structure SysState where
  reg : Option SessionData
  credsStored : Bool
  outstandingTimers : Nat
  deriving DecidableEq

/-- Events delivered to one session's handlers: the three connection.update
branches, creds.update, and the firing of a scheduled recovery callback
(which nulls the timer field and re-runs initializeWhatsApp; the re-created
record carries no timer). -/
inductive SessionEvent where
  | qr (token : String) (now : Nat)
  | connOpen (phone : Option String)
  | connClose (statusCode : Option Nat) (now : Nat)
  | credsUpdate
  | timerFire

/-- Apply one event to the system state, bookkeeping setTimeout / clearTimeout
calls in outstandingTimers. -/
def sysStep (st : SysState) (e : SessionEvent) : SysState :=
  match st.reg with
  | none => st
  | some s =>
      match e with
      | SessionEvent.qr token now => { st with reg := some (handleQr s token now) }
      | SessionEvent.connOpen phone =>
          let r := handleConnectionOpen s phone
          { st with reg := some r.1
                    outstandingTimers := st.outstandingTimers - (if r.2 then 1 else 0) }
      | SessionEvent.connClose code now =>
          let r := handleConnectionClose s code now
          { reg := if r.2.removeFromRegistry then none else some r.1
            credsStored := if r.2.deleteCreds then false else st.credsStored
            outstandingTimers :=
              st.outstandingTimers - (if r.2.cancelTimer then 1 else 0)
                + (if r.2.schedule.isSome then 1 else 0) }
      | SessionEvent.credsUpdate =>
          { st with reg := some (handleCredsUpdate s), credsStored := true }
      | SessionEvent.timerFire =>
          if s.reconnectTimer.isSome then
            { st with reg := some { s with reconnectTimer := none }
                      outstandingTimers := st.outstandingTimers - 1 }
          else st

/-- The state right after initializeWhatsApp stores a fresh record. -/
def initialSysState : SysState :=
  { reg := some initialSessionData, credsStored := false, outstandingTimers := 0 }

/-- Run a sequence of events from the freshly initialized state. -/
def runEvents (es : List SessionEvent) : SysState :=
  es.foldl sysStep initialSysState

/-- The number of scheduled recovery callbacks implied by the reconnectTimer
field of the registered record (zero when the record is gone). -/
def expectedTimers : Option SessionData → Nat
  | some s => if s.reconnectTimer.isSome then 1 else 0
  | none => 0

/-- The timer bookkeeping invariant: the number of scheduled recovery callbacks
matches the reconnectTimer field of the registered record. -/
def TimerInv (st : SysState) : Prop :=
  st.outstandingTimers = expectedTimers st.reg

/-- Sequentially issue checkLimit calls for one key at the given times,
stopping with none at the first rejection. -/
def runChecksAll (key : String) : RateLimiter → List Nat → Option RateLimiter
  | rl, [] => some rl
  | rl, t :: ts =>
      match checkLimit rl key t with
      | (some _, _) => none
      | (none, rl2) => runChecksAll key rl2 ts

/-- The limiter state after a run of checks that all succeeded (the input state
if any was rejected). -/
def afterChecks (key : String) (rl : RateLimiter) (ts : List Nat) : RateLimiter :=
  (runChecksAll key rl ts).getD rl

/-- A successful checkLimit stores back the pruned list with the current
timestamp appended. -/
theorem checkLimit_ok_requests (rl : RateLimiter) (key : String) (now : Nat)
    (h : (checkLimit rl key now).1 = none) :
    (checkLimit rl key now).2.requests key =
      (rl.requests key).filter
        (fun (timestamp : Nat) =>
          decide ((now : Int) - (timestamp : Int) < (rl.timeWindowMs : Int))) ++ [now] := by
  unfold checkLimit at h ⊢
  by_cases hc : rl.maxRequests ≤
      ((rl.requests key).filter
        (fun (timestamp : Nat) =>
          decide ((now : Int) - (timestamp : Int) < (rl.timeWindowMs : Int)))).length
  · simp only [hc, if_true] at h
    rcases hmin : listMin ((rl.requests key).filter
        (fun (timestamp : Nat) =>
          decide ((now : Int) - (timestamp : Int) < (rl.timeWindowMs : Int)))) with _ | m <;>
      simp [hmin] at h
  · simp [hc]

/-- A rejected checkLimit returns the limiter unchanged. -/
theorem checkLimit_fail_state (rl : RateLimiter) (key : String) (now : Nat)
    (h : (checkLimit rl key now).1.isSome = true) :
    (checkLimit rl key now).2 = rl := by
  unfold checkLimit at h ⊢
  by_cases hc : rl.maxRequests ≤
      ((rl.requests key).filter
        (fun (timestamp : Nat) =>
          decide ((now : Int) - (timestamp : Int) < (rl.timeWindowMs : Int)))).length
  · simp only [hc, if_true]
    rcases hmin : listMin ((rl.requests key).filter
        (fun (timestamp : Nat) =>
          decide ((now : Int) - (timestamp : Int) < (rl.timeWindowMs : Int)))) with _ | m <;>
      simp [hmin]
  · simp [hc] at h

/-- C10: checkLimit is atomic on failure — when the in-window count for the key
is at the limit the call throws and the limiter's stored state, in particular
the recorded timestamp list for that key, is exactly what it was before the
call (pruning is persisted only on successful checks). -/
theorem c10_checkLimit_atomic (rl : RateLimiter) (key : String) (now : Nat)
    (h : (checkLimit rl key now).1.isSome = true) :
    (checkLimit rl key now).2 = rl ∧
    (checkLimit rl key now).2.requests key = rl.requests key := by
  refine ⟨checkLimit_fail_state rl key now h, ?_⟩
  rw [checkLimit_fail_state rl key now h]

/-- Witness for C10 at a concrete limiter: one recorded request, limit 1, so
the next check in-window fails and the stored list is untouched. -/
theorem c10_checkLimit_atomic_witness :
    (checkLimit { maxRequests := 1, timeWindowMs := 10, requests := fun _ => [5] } "k" 6).2
        = { maxRequests := 1, timeWindowMs := 10, requests := fun _ => [5] } ∧
    (checkLimit { maxRequests := 1, timeWindowMs := 10, requests := fun _ => [5] } "k" 6).2.requests "k"
        = [5] :=
  c10_checkLimit_atomic
    { maxRequests := 1, timeWindowMs := 10, requests := fun _ => [5] } "k" 6 (by decide)

/-- C1 counterexample: a send on a registered but disconnected session with a
fresh limiter is rejected with NotConnected, yet the limiter's recorded state
for the session key is NOT the same after the request — the timestamp of the
attempt has been appended. -/
theorem c1_counterexample :
    (sendRoute whatsappLimiter (some initialSessionData) "s1" "555" "hi" 7).1
        = SendRouteResult.sendError SendError.notConnected ∧
    (sendRoute whatsappLimiter (some initialSessionData) "s1" "555" "hi" 7).2.requests "s1"
        = [7] ∧
    whatsappLimiter.requests "s1" = [] ∧
    (sendRoute whatsappLimiter (some initialSessionData) "s1" "555" "hi" 7).2.requests "s1"
        ≠ whatsappLimiter.requests "s1" := by
  refine ⟨rfl, ?_, rfl, ?_⟩
  · rfl
  · intro hcontra
    have h7 : (sendRoute whatsappLimiter (some initialSessionData) "s1" "555" "hi" 7).2.requests "s1"
        = [7] := rfl
    rw [h7] at hcontra
    cases hcontra

/-- C1 amended: a send on a registered session with isConnected = false fails
with NotConnected, but one rate-limit slot IS consumed — the route checks the
rate limiter before the connectivity check, so whenever the limit check passes
the current timestamp is appended to the session key's recorded list even
though the send is then rejected. -/
theorem c1_amended (limiter : RateLimiter) (s : SessionData)
    (sessionId phoneNumber message : String) (now : Nat)
    (hconn : s.isConnected = false)
    (hok : (checkLimit limiter sessionId now).1 = none) :
    (sendRoute limiter (some s) sessionId phoneNumber message now).1
        = SendRouteResult.sendError SendError.notConnected ∧
    (sendRoute limiter (some s) sessionId phoneNumber message now).2.requests sessionId
        = (limiter.requests sessionId).filter
            (fun (timestamp : Nat) =>
              decide ((now : Int) - (timestamp : Int) < (limiter.timeWindowMs : Int)))
          ++ [now] := by
  have hreq := checkLimit_ok_requests limiter sessionId now hok
  unfold sendRoute
  rcases hcl : checkLimit limiter sessionId now with ⟨ow, rl⟩
  rw [hcl] at hok hreq
  rcases ow with _ | w
  · refine ⟨?_, ?_⟩
    · simp [sendWhatsAppMessage, hconn]
    · simpa [sendWhatsAppMessage, hconn] using hreq
  · simp at hok

/-- Witness for C1 amended: fresh limiter, disconnected session, send at t=7.
The response is NotConnected and the key's list gains the timestamp. -/
theorem c1_amended_witness :
    (sendRoute whatsappLimiter (some initialSessionData) "s1" "555" "hi" 7).1
        = SendRouteResult.sendError SendError.notConnected ∧
    (sendRoute whatsappLimiter (some initialSessionData) "s1" "555" "hi" 7).2.requests "s1"
        = (whatsappLimiter.requests "s1").filter
            (fun (timestamp : Nat) =>
              decide ((7 : Int) - (timestamp : Int) < (whatsappLimiter.timeWindowMs : Int)))
          ++ [7] :=
  c1_amended whatsappLimiter initialSessionData "s1" "555" "hi" 7 rfl (by decide)

/-- C2 counterexample: after a QR is generated and the credential-persistence
event fires, qrScanned is true — but the artifact is still on the record (so it
is still returned to callers), and a subsequent recoverable connection-close
resets qrScanned to false: the flag does revert. -/
theorem c2_counterexample :
    (handleCredsUpdate (handleQr initialSessionData "tok" 0)).qrScanned = true ∧
    (handleCredsUpdate (handleQr initialSessionData "tok" 0)).qrCode = some "tok" ∧
    (handleConnectionClose (handleCredsUpdate (handleQr initialSessionData "tok" 0))
        (some 515) 1000).1.qrScanned = false := by
  refine ⟨rfl, rfl, ?_⟩
  rfl

/-- C2 amended: on receipt of the credential-persistence event while an
artifact is present the qrScanned flag is set and the status moves to
authenticating, but the artifact is NOT cleared at that moment — getQRCode
still returns it; the artifact is cleared only by the subsequent
connection-open or recoverable connection-close, and the recoverable close
also resets qrScanned to false, so the flag is not monotonic. -/
theorem c2_amended (s : SessionData) (q : String) (now : Nat)
    (hq : s.qrCode = some q) :
    (handleCredsUpdate s).qrScanned = true ∧
    (handleCredsUpdate s).status = Status.authenticating ∧
    (handleCredsUpdate s).qrCode = some q ∧
    (getQRCode (some (handleCredsUpdate s))).map QRCodeData.qrCode
        = some (some q) ∧
    (handleConnectionClose (handleCredsUpdate s) (some 515) now).1.qrCode = none ∧
    (handleConnectionClose (handleCredsUpdate s) (some 515) now).1.qrScanned = false := by
  have hs : (handleCredsUpdate s) =
      { s with qrScanned := true, status := Status.authenticating } := by
    unfold handleCredsUpdate
    simp [hq]
  refine ⟨by rw [hs], by rw [hs], by rw [hs]; exact hq, ?_, ?_, ?_⟩
  · unfold getQRCode
    rw [hs]
    simp [hq]
  · rw [hs]
    unfold handleConnectionClose
    simp [DisconnectReason.loggedOut, DisconnectReason.restartRequired]
    by_cases ht : s.reconnectTimer = none <;> simp [ht]
  · rw [hs]
    unfold handleConnectionClose
    simp [DisconnectReason.loggedOut, DisconnectReason.restartRequired]
    by_cases ht : s.reconnectTimer = none <;> simp [ht]

/-- Witness for C2 amended on a concrete record holding a fresh QR. -/
theorem c2_amended_witness :
    (handleCredsUpdate (handleQr initialSessionData "tok" 0)).qrScanned = true ∧
    (handleConnectionClose (handleCredsUpdate (handleQr initialSessionData "tok" 0))
        (some 515) 999).1.qrCode = none :=
  ⟨(c2_amended (handleQr initialSessionData "tok" 0) "tok" 999 rfl).1,
   (c2_amended (handleQr initialSessionData "tok" 0) "tok" 999 rfl).2.2.2.2.1⟩

/-- C3: a recoverable connection-close (code 515, 428, or restartRequired)
arriving while the artifact was just consumed (qrScanned) clears the artifact,
resets the scanned flag, sets status reconnecting, and — when no recovery timer
is already outstanding — schedules a recovery attempt with a fixed 2000 ms
delay. -/
theorem c3_recoverable_after_scan (s : SessionData) (code now : Nat)
    (hcode : code = 515 ∨ code = 428 ∨ code = DisconnectReason.restartRequired)
    (hscan : s.qrScanned = true)
    (htimer : s.reconnectTimer = none) :
    (handleConnectionClose s (some code) now).1.status = Status.reconnecting ∧
    (handleConnectionClose s (some code) now).1.qrCode = none ∧
    (handleConnectionClose s (some code) now).1.qrScanned = false ∧
    (handleConnectionClose s (some code) now).1.reconnectTimer = some 2000 ∧
    (handleConnectionClose s (some code) now).2.schedule = some 2000 := by
  unfold handleConnectionClose
  rcases hcode with h | h | h <;>
    subst h <;>
    simp [DisconnectReason.loggedOut, DisconnectReason.restartRequired, hscan, htimer]

/-- Witness for C3: scanned record with no timer, stream error 515. -/
theorem c3_recoverable_after_scan_witness :
    (handleConnectionClose
        { initialSessionData with qrScanned := true } (some 515) 50).1.status
      = Status.reconnecting ∧
    (handleConnectionClose
        { initialSessionData with qrScanned := true } (some 515) 50).2.schedule
      = some 2000 :=
  ⟨(c3_recoverable_after_scan { initialSessionData with qrScanned := true } 515 50
      (Or.inl rfl) rfl rfl).1,
   (c3_recoverable_after_scan { initialSessionData with qrScanned := true } 515 50
      (Or.inl rfl) rfl rfl).2.2.2.2⟩

/-- C6 counterexample: for an artifact generated at t = 0, a QR query at
exactly now = t + 180000 ms still returns the stored artifact — the route's
expiry test is strictly greater-than — whereas the claim requires qr_expired
for every now at or beyond t + 180 s. -/
theorem c6_counterexample :
    qrRoute (some (handleQr initialSessionData "tok" 0)) 180000
        = QrRouteResult.ok
            { qrCode := some "tok", status := Status.qr_pending, isConnected := false
              phoneNumber := none, qrGeneratedAt := some 0 } ∧
    qrRoute (some (handleQr initialSessionData "tok" 0)) 180000
        ≠ QrRouteResult.expired false (some 0) := by
  refine ⟨rfl, ?_⟩
  decide

/-- C6 amended: expiry is strict — for an artifact generated at t, a query at
now with t + 180000 < now answers qrCode null with status qr_expired, and a
query at now ≤ t + 180000 (including exactly t + 180 s) returns the stored
artifact with the record's own status. -/
theorem c6_amended (s : SessionData) (q : String) (t now : Nat)
    (hq : s.qrCode = some q) (ht : s.qrGeneratedAt = some t) :
    (t + 180000 < now →
      qrRoute (some s) now = QrRouteResult.expired s.isConnected (some t)) ∧
    (now ≤ t + 180000 →
      qrRoute (some s) now
        = QrRouteResult.ok
            { qrCode := some q, status := s.status, isConnected := s.isConnected
              phoneNumber := s.phoneNumber, qrGeneratedAt := some t }) := by
  unfold qrRoute getQRCode
  simp only [hq, ht]
  constructor
  · intro h
    have hx : 180000 < now - t := by omega
    simp [hx]
  · intro h
    have hx : ¬ 180000 < now - t := by omega
    simp [hx]

/-- Witness for C6 amended: generated at 0; a query at 180001 reads expired, a
query at exactly 180000 still returns the artifact. -/
theorem c6_amended_witness :
    qrRoute (some (handleQr initialSessionData "tok" 0)) 180001
        = QrRouteResult.expired false (some 0) ∧
    qrRoute (some (handleQr initialSessionData "tok" 0)) 180000
        = QrRouteResult.ok
            { qrCode := some "tok", status := Status.qr_pending, isConnected := false
              phoneNumber := none, qrGeneratedAt := some 0 } :=
  ⟨(c6_amended (handleQr initialSessionData "tok" 0) "tok" 0 180001 rfl rfl).1
      (by decide),
   (c6_amended (handleQr initialSessionData "tok" 0) "tok" 0 180000 rfl rfl).2
      (by decide)⟩

/-- C4: a recoverable connection-close arriving while an unconsumed artifact
exists branches on its age.  Unexpired (now - t le 180000): no reconnection is
scheduled, the timer field is untouched, the status is qr_pending, and the
artifact is still answered unchanged by the QR route.  Expired: the status is
reconnecting and — when no timer is already outstanding — a recovery attempt is
scheduled with a 2000 ms delay. -/
theorem c4_recoverable_with_artifact (s : SessionData) (code now : Nat)
    (q : String) (t : Nat)
    (hcode : code = 515 ∨ code = 428 ∨ code = DisconnectReason.restartRequired)
    (hscan : s.qrScanned = false)
    (hq : s.qrCode = some q)
    (ht : s.qrGeneratedAt = some t) :
    (now - t ≤ 180000 →
      (handleConnectionClose s (some code) now).1.status = Status.qr_pending ∧
      (handleConnectionClose s (some code) now).1.qrCode = some q ∧
      (handleConnectionClose s (some code) now).1.qrGeneratedAt = some t ∧
      (handleConnectionClose s (some code) now).1.reconnectTimer = s.reconnectTimer ∧
      (handleConnectionClose s (some code) now).2.schedule = none ∧
      qrRoute (some (handleConnectionClose s (some code) now).1) now
        = QrRouteResult.ok
            { qrCode := some q, status := Status.qr_pending, isConnected := false
              phoneNumber := s.phoneNumber, qrGeneratedAt := some t }) ∧
    (180000 < now - t →
      (handleConnectionClose s (some code) now).1.status = Status.reconnecting ∧
      (s.reconnectTimer = none →
        (handleConnectionClose s (some code) now).1.reconnectTimer = some 2000 ∧
        (handleConnectionClose s (some code) now).2.schedule = some 2000)) := by
  constructor
  · intro hfresh
    have hcc : handleConnectionClose s (some code) now =
        ({ s with isConnected := false, status := Status.qr_pending }, noCloseEffects) := by
      unfold handleConnectionClose
      rcases hcode with h | h | h <;>
        subst h <;>
        simp [DisconnectReason.loggedOut, DisconnectReason.restartRequired,
              hscan, hq, ht, Nat.not_lt.mpr hfresh]
    rw [hcc]
    refine ⟨rfl, hq, ht, rfl, rfl, ?_⟩
    unfold qrRoute getQRCode
    simp [hq, ht, Nat.not_lt.mpr hfresh]
  · intro hexp
    unfold handleConnectionClose
    rcases hcode with h | h | h <;>
      subst h <;>
      simp [DisconnectReason.loggedOut, DisconnectReason.restartRequired,
            hscan, hq, ht, hexp] <;>
      by_cases htm : s.reconnectTimer = none <;>
      simp [htm]

/-- Witness for C4: a fresh artifact at t = 0 queried after a 515 close at
now = 1000 (unexpired branch) and the same record closed at now = 200000
(expired branch, scheduling with 2000 ms delay). -/
theorem c4_recoverable_with_artifact_witness :
    (handleConnectionClose (handleQr initialSessionData "tok" 0) (some 515) 1000).2.schedule
        = none ∧
    (handleConnectionClose (handleQr initialSessionData "tok" 0) (some 515) 200000).2.schedule
        = some 2000 :=
  ⟨((c4_recoverable_with_artifact (handleQr initialSessionData "tok" 0) 515 1000 "tok" 0
      (Or.inl rfl) rfl rfl rfl).1 (by decide)).2.2.2.2.1,
   (((c4_recoverable_with_artifact (handleQr initialSessionData "tok" 0) 515 200000 "tok" 0
      (Or.inl rfl) rfl rfl rfl).2 (by decide)).2 rfl).2⟩

/-- C5: a connection-close carrying the logout code leaves the record with
terminal status disconnected and no timer, schedules no retry, removes the
entry from activeSessions, and deletes the persisted credentials. -/
theorem c5_logout (st : SysState) (s : SessionData) (now : Nat)
    (h : st.reg = some s) :
    (sysStep st (SessionEvent.connClose (some DisconnectReason.loggedOut) now)).reg
        = none ∧
    (sysStep st (SessionEvent.connClose (some DisconnectReason.loggedOut) now)).credsStored
        = false ∧
    (handleConnectionClose s (some DisconnectReason.loggedOut) now).1.status
        = Status.disconnected ∧
    (handleConnectionClose s (some DisconnectReason.loggedOut) now).1.reconnectTimer
        = none ∧
    (handleConnectionClose s (some DisconnectReason.loggedOut) now).2.schedule
        = none := by
  have hcc : (handleConnectionClose s (some DisconnectReason.loggedOut) now).2.removeFromRegistry
        = true ∧
      (handleConnectionClose s (some DisconnectReason.loggedOut) now).2.deleteCreds = true ∧
      (handleConnectionClose s (some DisconnectReason.loggedOut) now).1.status
        = Status.disconnected ∧
      (handleConnectionClose s (some DisconnectReason.loggedOut) now).1.reconnectTimer
        = none ∧
      (handleConnectionClose s (some DisconnectReason.loggedOut) now).2.schedule = none := by
    unfold handleConnectionClose
    simp
  refine ⟨?_, ?_, hcc.2.2.1, hcc.2.2.2.1, hcc.2.2.2.2⟩
  · unfold sysStep
    simp [h, hcc.1]
  · unfold sysStep
    simp [h, hcc.2.1]

/-- Witness for C5 from the freshly initialized system state. -/
theorem c5_logout_witness :
    (sysStep initialSysState
        (SessionEvent.connClose (some DisconnectReason.loggedOut) 42)).reg = none ∧
    (sysStep initialSysState
        (SessionEvent.connClose (some DisconnectReason.loggedOut) 42)).credsStored = false :=
  ⟨(c5_logout initialSysState initialSessionData 42 rfl).1,
   (c5_logout initialSysState initialSessionData 42 rfl).2.1⟩

/-- C8: the re-entrant connect decision.  A connected record, or a record with
an unscanned artifact at most 180000 ms old, is returned unchanged with no new
connection; any other existing record — expired artifact, consumed artifact, or
no artifact while disconnected — is torn down (ending the socket when a handle
exists) and the call proceeds as a fresh attempt. -/
theorem c8_initialize_idempotent (s : SessionData) (now : Nat) :
    (s.isConnected = true →
      initializeWhatsApp (some s) now = InitDecision.returnExisting s) ∧
    (∀ q t, s.isConnected = false → s.qrScanned = false → s.qrCode = some q →
      s.qrGeneratedAt = some t → now - t ≤ 180000 →
      initializeWhatsApp (some s) now = InitDecision.returnExisting s) ∧
    (s.isConnected = false →
      ((∃ t, s.qrGeneratedAt = some t ∧ 180000 < now - t) ∨
        s.qrCode = none ∨ s.qrScanned = true) →
      initializeWhatsApp (some s) now = InitDecision.freshAttempt s.socket) := by
  refine ⟨?_, ?_, ?_⟩
  · intro hconn
    unfold initializeWhatsApp
    simp [hconn]
  · intro q t hconn hscan hq ht hfresh
    unfold initializeWhatsApp
    simp [hconn, hq, ht, hscan, Nat.not_lt.mpr hfresh]
  · intro hconn hother
    unfold initializeWhatsApp
    simp only [hconn, Bool.false_eq_true, if_false]
    have hkeep :
        (match s.qrCode, s.qrGeneratedAt with
          | some _, some t => !s.qrScanned && !(decide (180000 < now - t))
          | _, _ => false) = false := by
      rcases hother with ⟨t, ht, hexp⟩ | hq | hscan
      · rcases hqc : s.qrCode with _ | q
        · simp
        · simp [hqc, ht, hexp]
      · simp [hq]
      · rcases hqc : s.qrCode with _ | q
        · simp
        · rcases hgt : s.qrGeneratedAt with _ | t
          · simp
          · simp [hscan]
    simp [hkeep]

/-- Witness for C8: a connected record is returned unchanged. -/
theorem c8_initialize_idempotent_witness :
    initializeWhatsApp (some { initialSessionData with isConnected := true }) 0
        = InitDecision.returnExisting { initialSessionData with isConnected := true } ∧
    initializeWhatsApp (some { initialSessionData with qrScanned := true }) 0
        = InitDecision.freshAttempt true :=
  ⟨(c8_initialize_idempotent { initialSessionData with isConnected := true } 0).1 rfl,
   (c8_initialize_idempotent { initialSessionData with qrScanned := true } 0).2.2 rfl
      (Or.inr (Or.inr rfl))⟩

/-- Computation of sysStep when no record is registered. -/
theorem sysStep_none (st : SysState) (e : SessionEvent) (hreg : st.reg = none) :
    sysStep st e = st := by
  unfold sysStep
  rw [hreg]

/-- Computation of sysStep on a qr event. -/
theorem sysStep_qr (st : SysState) (s : SessionData) (token : String) (now : Nat)
    (hreg : st.reg = some s) :
    sysStep st (SessionEvent.qr token now)
      = { st with reg := some (handleQr s token now) } := by
  unfold sysStep
  rw [hreg]

/-- Computation of sysStep on a connection-open event. -/
theorem sysStep_open (st : SysState) (s : SessionData) (phone : Option String)
    (hreg : st.reg = some s) :
    sysStep st (SessionEvent.connOpen phone)
      = { st with reg := some (handleConnectionOpen s phone).1
                  outstandingTimers :=
                    st.outstandingTimers
                      - (if (handleConnectionOpen s phone).2 then 1 else 0) } := by
  unfold sysStep
  rw [hreg]

/-- Computation of sysStep on a connection-close event. -/
theorem sysStep_close (st : SysState) (s : SessionData) (code : Option Nat) (now : Nat)
    (hreg : st.reg = some s) :
    sysStep st (SessionEvent.connClose code now)
      = { reg := if (handleConnectionClose s code now).2.removeFromRegistry then none
                 else some (handleConnectionClose s code now).1
          credsStored := if (handleConnectionClose s code now).2.deleteCreds then false
                         else st.credsStored
          outstandingTimers :=
            st.outstandingTimers
              - (if (handleConnectionClose s code now).2.cancelTimer then 1 else 0)
              + (if (handleConnectionClose s code now).2.schedule.isSome then 1 else 0) } := by
  unfold sysStep
  rw [hreg]

/-- Computation of sysStep on a creds-update event. -/
theorem sysStep_creds (st : SysState) (s : SessionData) (hreg : st.reg = some s) :
    sysStep st SessionEvent.credsUpdate
      = { st with reg := some (handleCredsUpdate s), credsStored := true } := by
  unfold sysStep
  rw [hreg]

/-- Computation of sysStep on a timer firing. -/
theorem sysStep_fire (st : SysState) (s : SessionData) (hreg : st.reg = some s) :
    sysStep st SessionEvent.timerFire
      = if s.reconnectTimer.isSome then
          { st with reg := some { s with reconnectTimer := none }
                    outstandingTimers := st.outstandingTimers - 1 }
        else st := by
  unfold sysStep
  rw [hreg]

/-- The qr handler does not touch the timer field. -/
theorem handleQr_timer (s : SessionData) (token : String) (now : Nat) :
    (handleQr s token now).reconnectTimer = s.reconnectTimer := rfl

/-- The creds-update handler does not touch the timer field. -/
theorem handleCredsUpdate_timer (s : SessionData) :
    (handleCredsUpdate s).reconnectTimer = s.reconnectTimer := by
  unfold handleCredsUpdate
  by_cases h : s.qrCode.isSome = true <;> simp [h]

/-- Timer behaviour of the close handler, branch by branch: either the record
is removed with the timer cleared and a live timer cancelled (logout), or the
record stays, no cancellation happens, and the handler either leaves the timer
field alone with nothing scheduled, or — only when no timer was outstanding —
schedules one and stores its handle. -/
theorem handleConnectionClose_timer_cases (s : SessionData) (code : Option Nat)
    (now : Nat) :
    ((handleConnectionClose s code now).2.removeFromRegistry = true ∧
     (handleConnectionClose s code now).1.reconnectTimer = none ∧
     (handleConnectionClose s code now).2.cancelTimer = s.reconnectTimer.isSome ∧
     (handleConnectionClose s code now).2.schedule = none) ∨
    ((handleConnectionClose s code now).2.removeFromRegistry = false ∧
     (handleConnectionClose s code now).2.cancelTimer = false ∧
     (((handleConnectionClose s code now).2.schedule = none ∧
       (handleConnectionClose s code now).1.reconnectTimer = s.reconnectTimer) ∨
      ((handleConnectionClose s code now).2.schedule.isSome = true ∧
       s.reconnectTimer = none ∧
       (handleConnectionClose s code now).1.reconnectTimer
         = (handleConnectionClose s code now).2.schedule))) := by
  unfold handleConnectionClose
  by_cases h1 : code = some DisconnectReason.loggedOut
  · left
    simp [h1]
  · right
    by_cases h2 : code = some 515 ∨ code = some 428 ∨
        code = some DisconnectReason.restartRequired
    · by_cases h3 : s.qrScanned = true
      · by_cases htm : s.reconnectTimer = none <;>
          simp [h1, h2, h3, htm, noCloseEffects]
      · by_cases h4 : s.qrCode.isSome = true
        · rcases hgt : s.qrGeneratedAt with _ | t
          · simp [h1, h2, h3, h4, hgt, noCloseEffects]
          · by_cases h5 : 180000 < now - t
            · by_cases htm : s.reconnectTimer = none <;>
                simp [h1, h2, h3, h4, hgt, h5, htm, noCloseEffects]
            · simp [h1, h2, h3, h4, hgt, h5, noCloseEffects]
        · by_cases htm : s.reconnectTimer = none <;>
            simp [h1, h2, h3, h4, htm, noCloseEffects]
    · simp [h1, h2, noCloseEffects]

/-- When a recovery timer is already outstanding, the close handler never
issues a new setTimeout (idempotent scheduling). -/
theorem close_schedule_guarded (s : SessionData) (code : Option Nat) (now : Nat)
    (d : Nat) (htm : s.reconnectTimer = some d) :
    (handleConnectionClose s code now).2.schedule = none := by
  rcases handleConnectionClose_timer_cases s code now with
    ⟨_, _, _, hsch⟩ | ⟨_, _, ⟨hsch, _⟩ | ⟨_, hnone, _⟩⟩
  · exact hsch
  · exact hsch
  · rw [htm] at hnone
    cases hnone

/-- One step of the event loop preserves the timer bookkeeping invariant. -/
theorem timerInv_step (st : SysState) (e : SessionEvent) (h : TimerInv st) :
    TimerInv (sysStep st e) := by
  unfold TimerInv at h ⊢
  rcases hreg : st.reg with _ | s
  · rw [sysStep_none st e hreg]
    exact h
  · rw [hreg] at h
    simp only [expectedTimers] at h
    rcases e with ⟨token, tnow⟩ | ⟨phone⟩ | ⟨code, cnow⟩ | _ | _
    · rw [sysStep_qr st s token tnow hreg]
      simp only [expectedTimers, handleQr_timer]
      exact h
    · rw [sysStep_open st s phone hreg]
      have hop : (handleConnectionOpen s phone).1.reconnectTimer = none := rfl
      have hcan : (handleConnectionOpen s phone).2 = s.reconnectTimer.isSome := rfl
      simp only [expectedTimers, hop, hcan, Option.isSome_none, Bool.false_eq_true,
        if_false]
      by_cases hb : s.reconnectTimer.isSome = true <;> simp [hb] at h ⊢ <;> omega
    · rw [sysStep_close st s code cnow hreg]
      rcases handleConnectionClose_timer_cases s code cnow with
        ⟨hrm, htm', hcan, hsch⟩ | ⟨hrm, hcan, ⟨hsch, htm'⟩ | ⟨hsch, hnone, htm'⟩⟩
      · simp only [hrm, hcan, hsch, if_true, Option.isSome_none, Bool.false_eq_true,
          if_false, expectedTimers]
        by_cases hb : s.reconnectTimer.isSome = true <;> simp [hb] at h ⊢ <;> omega
      · simp only [hrm, hcan, hsch, Bool.false_eq_true, if_false, Option.isSome_none,
          expectedTimers, htm']
        by_cases hb : s.reconnectTimer.isSome = true <;> simp [hb] at h ⊢ <;> omega
      · simp only [hrm, hcan, hsch, Bool.false_eq_true, if_false, if_true,
          expectedTimers, htm']
        rw [hnone] at h
        simp only [Option.isSome_none, Bool.false_eq_true, if_false] at h
        simp [hsch, h]
    · rw [sysStep_creds st s hreg]
      simp only [expectedTimers, handleCredsUpdate_timer]
      exact h
    · rw [sysStep_fire st s hreg]
      by_cases hb : s.reconnectTimer.isSome = true
      · simp only [hb, if_true, expectedTimers, Option.isSome_none,
          Bool.false_eq_true, if_false]
        simp [hb] at h
        omega
      · simp only [hb, Bool.false_eq_true, if_false]
        rw [hreg]
        simp only [expectedTimers]
        simp [hb] at h
        simp [hb, h]

/-- The invariant bounds the number of outstanding timers by one. -/
theorem timerInv_le_one (st : SysState) (h : TimerInv st) :
    st.outstandingTimers ≤ 1 := by
  unfold TimerInv at h
  rw [h]
  rcases st.reg with _ | s
  · simp [expectedTimers]
  · simp only [expectedTimers]
    rcases s.reconnectTimer with _ | d <;> simp

/-- C7: per session at most one recovery timer is outstanding — along any event
sequence from the freshly initialized state the number of scheduled recovery
callbacks never exceeds one, and an attempt to schedule a recovery while a
timer already exists is a no-op (the close handler issues no new setTimeout). -/
theorem c7_single_recovery_timer :
    (∀ es : List SessionEvent, (runEvents es).outstandingTimers ≤ 1) ∧
    (∀ (s : SessionData) (code : Option Nat) (now d : Nat),
      s.reconnectTimer = some d →
      (handleConnectionClose s code now).2.schedule = none) := by
  constructor
  · have hfold : ∀ (es : List SessionEvent) (st : SysState),
        TimerInv st → TimerInv (es.foldl sysStep st) := by
      intro es
      induction es with
      | nil => intro st h; exact h
      | cons e es ih =>
          intro st h
          exact ih (sysStep st e) (timerInv_step st e h)
    intro es
    refine timerInv_le_one _ (hfold es initialSysState ?_)
    unfold TimerInv initialSysState
    rfl
  · intro s code now d htm
    exact close_schedule_guarded s code now d htm

/-- Witness for C7 on a concrete event trace (a 515 close that schedules, the
timer firing, another close that schedules again) and a concrete record with a
pending timer receiving another recoverable close. -/
theorem c7_single_recovery_timer_witness :
    (runEvents
        [SessionEvent.connClose (some 515) 10, SessionEvent.timerFire,
         SessionEvent.connClose (some 515) 5000]).outstandingTimers ≤ 1 ∧
    (handleConnectionClose { initialSessionData with reconnectTimer := some 3000 }
        (some 515) 10).2.schedule = none :=
  ⟨c7_single_recovery_timer.1
      [SessionEvent.connClose (some 515) 10, SessionEvent.timerFire,
       SessionEvent.connClose (some 515) 5000],
   c7_single_recovery_timer.2
      { initialSessionData with reconnectTimer := some 3000 } (some 515) 10 3000 rfl⟩

/-- Folding Nat.min is bounded by the initial accumulator. -/
theorem foldl_min_le_init (xs : List Nat) : ∀ x : Nat, xs.foldl Nat.min x ≤ x := by
  induction xs with
  | nil => intro x; simp
  | cons a l ih =>
      intro x
      simp only [List.foldl_cons]
      exact le_trans (ih (Nat.min x a)) (Nat.min_le_left x a)

/-- Folding Nat.min lands on the accumulator or on a list element. -/
theorem foldl_min_mem (xs : List Nat) :
    ∀ x : Nat, xs.foldl Nat.min x = x ∨ xs.foldl Nat.min x ∈ xs := by
  induction xs with
  | nil => intro x; left; rfl
  | cons a l ih =>
      intro x
      simp only [List.foldl_cons]
      rcases ih (Nat.min x a) with h | h
      · by_cases hxa : x ≤ a
        · left
          rw [h]
          exact Nat.min_eq_left hxa
        · right
          rw [h]
          have hmin : Nat.min x a = a := Nat.min_eq_right (Nat.le_of_not_le hxa)
          rw [hmin]
          exact List.mem_cons_self a l
      · right
        exact List.mem_cons_of_mem a h

/-- Folding Nat.min is a lower bound of every list element. -/
theorem foldl_min_le_mem (xs : List Nat) :
    ∀ (x y : Nat), y ∈ xs → xs.foldl Nat.min x ≤ y := by
  induction xs with
  | nil => intro x y h; cases h
  | cons a l ih =>
      intro x y h
      simp only [List.foldl_cons]
      rcases List.mem_cons.mp h with rfl | h
      · exact le_trans (foldl_min_le_init l (Nat.min x y)) (Nat.min_le_right x y)
      · exact ih (Nat.min x a) y h

/-- listMin of a non-empty list is defined. -/
theorem listMin_isSome (l : List Nat) (h : l ≠ []) : ∃ m, listMin l = some m := by
  rcases l with _ | ⟨x, xs⟩
  · exact absurd rfl h
  · exact ⟨xs.foldl Nat.min x, rfl⟩

/-- listMin returns a member of the list. -/
theorem listMin_mem (l : List Nat) (m : Nat) (h : listMin l = some m) : m ∈ l := by
  rcases l with _ | ⟨x, xs⟩
  · cases h
  · unfold listMin at h
    injection h with h
    rw [← h]
    rcases foldl_min_mem xs x with h2 | h2
    · rw [h2]
      exact List.mem_cons_self x xs
    · exact List.mem_cons_of_mem x h2

/-- listMin is a lower bound of the list. -/
theorem listMin_le (l : List Nat) (m : Nat) (h : listMin l = some m) :
    ∀ y ∈ l, m ≤ y := by
  rcases l with _ | ⟨x, xs⟩
  · cases h
  · unfold listMin at h
    injection h with h
    intro y hy
    rw [← h]
    rcases List.mem_cons.mp hy with rfl | hy
    · exact foldl_min_le_init xs y
    · exact foldl_min_le_mem xs x y hy

/-- Computation of checkLimit below the limit. -/
theorem checkLimit_under (rl : RateLimiter) (key : String) (now : Nat)
    (h : ((rl.requests key).filter
        (fun (timestamp : Nat) =>
          decide ((now : Int) - (timestamp : Int) < (rl.timeWindowMs : Int)))).length
      < rl.maxRequests) :
    checkLimit rl key now =
      (none,
        { rl with
          requests := fun k => if k = key then
              (rl.requests key).filter
                (fun (timestamp : Nat) =>
                  decide ((now : Int) - (timestamp : Int) < (rl.timeWindowMs : Int)))
                ++ [now]
            else rl.requests k }) := by
  unfold checkLimit
  simp [Nat.not_le.mpr h]

/-- Computation of checkLimit at or above the limit. -/
theorem checkLimit_over (rl : RateLimiter) (key : String) (now : Nat) (m : Nat)
    (hfull : rl.maxRequests ≤ ((rl.requests key).filter
        (fun (timestamp : Nat) =>
          decide ((now : Int) - (timestamp : Int) < (rl.timeWindowMs : Int)))).length)
    (hmin : listMin ((rl.requests key).filter
        (fun (timestamp : Nat) =>
          decide ((now : Int) - (timestamp : Int) < (rl.timeWindowMs : Int))))
      = some m) :
    checkLimit rl key now
      = (some ((rl.timeWindowMs : Int) - ((now : Int) - (m : Int))), rl) := by
  unfold checkLimit
  simp [hfull, hmin]

/-- Running checks whose times are all inside the window of every recorded and
upcoming timestamp, with enough capacity, succeeds and just appends the times
to the key's list. -/
theorem runChecksAll_loaded (key : String) :
    ∀ (ts : List Nat) (rl : RateLimiter) (acc : List Nat),
      rl.requests key = acc →
      (∀ x ∈ acc ++ ts, ∀ t ∈ ts, (t : Int) - (x : Int) < (rl.timeWindowMs : Int)) →
      acc.length + ts.length ≤ rl.maxRequests →
      ∃ rl2, runChecksAll key rl ts = some rl2 ∧
        rl2.requests key = acc ++ ts ∧
        rl2.maxRequests = rl.maxRequests ∧
        rl2.timeWindowMs = rl.timeWindowMs := by
  intro ts
  induction ts with
  | nil =>
      intro rl acc hacc hwin hlen
      exact ⟨rl, rfl, by simpa using hacc, rfl, rfl⟩
  | cons t ts ih =>
      intro rl acc hacc hwin hlen
      have hall : ∀ x ∈ acc,
          decide ((t : Int) - (x : Int) < (rl.timeWindowMs : Int)) = true := by
        intro x hx
        exact decide_eq_true
          (hwin x (List.mem_append_left (t :: ts) hx) t (List.mem_cons_self t ts))
      have hfilter : (rl.requests key).filter
          (fun (timestamp : Nat) =>
            decide ((t : Int) - (timestamp : Int) < (rl.timeWindowMs : Int))) = acc := by
        rw [hacc]
        exact List.filter_eq_self.mpr hall
      have hlt : ((rl.requests key).filter
          (fun (timestamp : Nat) =>
            decide ((t : Int) - (timestamp : Int) < (rl.timeWindowMs : Int)))).length
          < rl.maxRequests := by
        rw [hfilter]
        simp only [List.length_cons] at hlen
        omega
      have hstep := checkLimit_under rl key t hlt
      rw [hfilter] at hstep
      obtain ⟨rl3, hrun, hreq3, hmax3, hwnd3⟩ :=
        ih { rl with
              requests := fun k => if k = key then acc ++ [t] else rl.requests k }
          (acc ++ [t]) (by simp)
          (by
            intro x hx u hu
            show (u : Int) - (x : Int) < (rl.timeWindowMs : Int)
            refine hwin x ?_ u (List.mem_cons_of_mem t hu)
            rcases List.mem_append.mp hx with hx | hx
            · rcases List.mem_append.mp hx with hx | hx
              · exact List.mem_append_left _ hx
              · simp only [List.mem_singleton] at hx
                subst hx
                exact List.mem_append_right _ (List.mem_cons_self x ts)
            · exact List.mem_append_right _ (List.mem_cons_of_mem t hx))
          (by
            show (acc ++ [t]).length + ts.length ≤ rl.maxRequests
            simp only [List.length_append, List.length_singleton]
            simp only [List.length_cons] at hlen
            omega)
      refine ⟨rl3, ?_, ?_, hmax3, hwnd3⟩
      · unfold runChecksAll
        rw [hstep]
        exact hrun
      · rw [hreq3]
        simp

/-- C9: for any key whose list is empty, issuing maxRequests checks at times
that are pairwise within one window all succeed and record exactly those times;
one further check t2 inside the same window (at or after the recorded times)
fails with wait time window - (t2 - oldestRemaining), which is at most the
window; and a later check t3 made after the window has elapsed past some
recorded request succeeds again. -/
theorem c9_rate_limiter_window (rl : RateLimiter) (key : String) (ts : List Nat)
    (t2 t3 : Nat)
    (h0 : rl.requests key = [])
    (hlen : ts.length = rl.maxRequests)
    (hmax : 0 < rl.maxRequests)
    (hwin : ∀ x ∈ ts, ∀ t ∈ ts, (t : Int) - (x : Int) < (rl.timeWindowMs : Int))
    (ht2win : ∀ x ∈ ts, (t2 : Int) - (x : Int) < (rl.timeWindowMs : Int))
    (ht2ge : ∀ x ∈ ts, x ≤ t2)
    (ht3 : ∃ x ∈ ts, (rl.timeWindowMs : Int) ≤ (t3 : Int) - (x : Int)) :
    (runChecksAll key rl ts).isSome = true ∧
    (afterChecks key rl ts).requests key = ts ∧
    (checkLimit (afterChecks key rl ts) key t2).1
        = some ((rl.timeWindowMs : Int)
            - ((t2 : Int) - (((listMin ts).getD 0 : Nat) : Int))) ∧
    (rl.timeWindowMs : Int) - ((t2 : Int) - (((listMin ts).getD 0 : Nat) : Int))
        ≤ (rl.timeWindowMs : Int) ∧
    (checkLimit (afterChecks key rl ts) key t3).1 = none := by
  obtain ⟨rl2, hrun, hreq, hmaxeq, hwndeq⟩ :=
    runChecksAll_loaded key ts rl [] h0 (by simpa using hwin) (by simp [hlen])
  have hafter : afterChecks key rl ts = rl2 := by
    unfold afterChecks
    rw [hrun]
    rfl
  have hreq2 : rl2.requests key = ts := by simpa using hreq
  have htsne : ts ≠ [] := by
    intro hnil
    rw [hnil] at hlen
    simp at hlen
    omega
  obtain ⟨m, hm⟩ := listMin_isSome ts htsne
  have hmem := listMin_mem ts m hm
  have hgetD : ((listMin ts).getD 0 : Nat) = m := by rw [hm]; rfl
  have hfilter2 : (rl2.requests key).filter
      (fun (timestamp : Nat) =>
        decide ((t2 : Int) - (timestamp : Int) < (rl2.timeWindowMs : Int))) = ts := by
    rw [hreq2]
    apply List.filter_eq_self.mpr
    intro a ha
    rw [hwndeq]
    exact decide_eq_true (ht2win a ha)
  have hfull : rl2.maxRequests ≤ ((rl2.requests key).filter
      (fun (timestamp : Nat) =>
        decide ((t2 : Int) - (timestamp : Int) < (rl2.timeWindowMs : Int)))).length := by
    rw [hfilter2, hlen, hmaxeq]
  have hover := checkLimit_over rl2 key t2 m hfull (by rw [hfilter2]; exact hm)
  have hm_le_t2 : m ≤ t2 := ht2ge m hmem
  refine ⟨by rw [hrun]; rfl, by rw [hafter]; exact hreq2, ?_, ?_, ?_⟩
  · rw [hafter, hover, hgetD, hwndeq]
  · rw [hgetD]
    omega
  · rw [hafter]
    have hlt3 : ((rl2.requests key).filter
        (fun (timestamp : Nat) =>
          decide ((t3 : Int) - (timestamp : Int) < (rl2.timeWindowMs : Int)))).length
        < rl2.maxRequests := by
      rw [hreq2, hmaxeq, ← hlen]
      apply List.length_filter_lt_length_iff_exists.mpr
      obtain ⟨x, hx, hxw⟩ := ht3
      refine ⟨x, hx, ?_⟩
      rw [hwndeq]
      simp only [decide_eq_true_eq]
      omega
    rw [checkLimit_under rl2 key t3 hlt3]

/-- Witness for C9: limit 2 over a 10 ms window, checks at times 0 and 1, a
third check at time 2 rejected with wait 8 which is at most the window, and a
check at time 11 allowed again. -/
theorem c9_rate_limiter_window_witness :
    (runChecksAll "k"
        { maxRequests := 2, timeWindowMs := 10, requests := fun _ => [] }
        [0, 1]).isSome = true ∧
    (afterChecks "k"
        { maxRequests := 2, timeWindowMs := 10, requests := fun _ => [] }
        [0, 1]).requests "k" = [0, 1] ∧
    (checkLimit (afterChecks "k"
        { maxRequests := 2, timeWindowMs := 10, requests := fun _ => [] }
        [0, 1]) "k" 2).1
      = some ((10 : Int) - ((2 : Int) - (((listMin [0, 1]).getD 0 : Nat) : Int))) ∧
    (10 : Int) - ((2 : Int) - (((listMin [0, 1]).getD 0 : Nat) : Int)) ≤ (10 : Int) ∧
    (checkLimit (afterChecks "k"
        { maxRequests := 2, timeWindowMs := 10, requests := fun _ => [] }
        [0, 1]) "k" 11).1 = none :=
  c9_rate_limiter_window
    { maxRequests := 2, timeWindowMs := 10, requests := fun _ => [] }
    "k" [0, 1] 2 11 rfl rfl (by decide) (by decide) (by decide) (by decide)
    (by decide)

end Notif
